import Mathlib

/-!
Verification development for the CITI certificate verification core
(`app/services/citi_verification_service.py`, `app/services/document_service.py`,
`app/services/staff/dashboard_stats_service.py`).

The Python source is shallowly embedded: pure string processing becomes Lean
functions on `List Char` / `String`, fallible code returns `Except PyErr`,
and external collaborators (database, object storage, the language-model
inference calls, the browser retriever) are oracles supplied through an
environment record.  Machine floats only occur in the extraction-confidence
field, which no theorem depends on; it is modelled with `ℚ`.
-/

namespace Citi

/-- Python exception values, identified by kind and a payload string. -/
inductive PyErr where
  | valueError (msg : String)
  | keyError (key : String)
  | typeError (kwarg : String)
  | fileNotFound (msg : String)
  | exc (msg : String)
  deriving DecidableEq, Repr

/-- Message text of an exception, as `str(e)` would render its argument. -/
def PyErr.msg : PyErr → String
  | .valueError m => m
  | .keyError k => k
  | .typeError k => k
  | .fileNotFound m => m
  | .exc m => m

/-! ## Character helpers (ASCII, as in the CPython fast paths the code hits) -/
/-- ASCII whitespace recognised by Python `str.strip()` / regex `\s`. -/
def isWs (c : Char) : Bool :=
  c = ' ' || c = '\t' || c = '\n' || c = '\r' || c = Char.ofNat 11 || c = Char.ofNat 12

def isDigitC (c : Char) : Bool := '0' ≤ c && c ≤ '9'

/-- Character class `[0-9a-f]` under `re.IGNORECASE`. -/
def isHexCI (c : Char) : Bool :=
  isDigitC c || ('a' ≤ c && c ≤ 'f') || ('A' ≤ c && c ≤ 'F')

def isAsciiAlpha (c : Char) : Bool :=
  ('a' ≤ c && c ≤ 'z') || ('A' ≤ c && c ≤ 'Z')

/-! ## `clean` — the cross-check normalizer
`citi_verification_service.py` lines 269-279:
`re.sub(r"\(.*?\)", "", str(val)).replace(" ", "").lower() if val else ""`.

`re.sub` with the lazy pattern scans left to right: at the leftmost `'('`
that is followed by a `')'` with no newline strictly between them (`.` does
not match `'\n'`), it deletes the span up to the nearest such `')'` and
resumes scanning after it; a `'('` with no admissible closer is kept and
scanning resumes at the next character.  `stripParens` implements exactly
this; a fuel argument (initialised to the list length, which the recursion
never exhausts) keeps the recursion structural so terms reduce in the kernel. -/
/-- After an opening `'('`: drop characters up to and including the first
`')'`, failing if a `'\n'` or the end of input comes first. -/
def afterClose : List Char → Option (List Char)
  | [] => none
  | c :: cs => if c = ')' then some cs else if c = '\n' then none else afterClose cs

/-- Fuelled implementation of the lazy-parenthetical deletion pass. -/
def stripParensF : Nat → List Char → List Char
  | 0, s => s
  | _ + 1, [] => []
  | f + 1, c :: cs =>
    if c = '(' then
      match afterClose cs with
      | some rest => stripParensF f rest
      | none => c :: stripParensF f cs
    else c :: stripParensF f cs

/-- `re.sub(r"\(.*?\)", "", s)` on the character list `s`. -/
def stripParens (s : List Char) : List Char := stripParensF s.length s

/-- The normalizer on character lists: delete lazy parentheticals, delete
space characters (`.replace(" ", "")` removes only `' '`), lowercase
(`str.lower`, ASCII-faithful via `Char.toLower`). -/
def cleanL (s : List Char) : List Char :=
  ((stripParens s).filter (fun c => c ≠ ' ')).map Char.toLower

/-- The `clean` closure from `_verify_with_cross_check_text`.  Its argument
there is always a `str` field of the structured-output model; for the empty
string the `if val else ""` branch returns `""`, which coincides with the
computed value. -/
def clean (s : String) : String := ⟨cleanL s.data⟩

/-! ## Schemas (`app/schemas/citi_cert_schemas.py`) -/
inductive VerificationDecision where
  | APPROVE
  | MANUAL_REVIEW
  | REJECT
  deriving DecidableEq, Repr

/-- `app/db/models` submission statuses used by the pipeline. -/
inductive SubmissionStatus where
  | PENDING
  | APPROVED
  | REJECTED
  | MANUAL_REVIEW
  deriving DecidableEq, Repr

structure PyMuPDFMetadata where
  format : Option String := none
  title : Option String := none
  author : Option String := none
  subject : Option String := none
  keywords : Option String := none
  creator : Option String := none
  producer : Option String := none
  creation_date : Option String := none
  mod_date : Option String := none
  trapped : Option String := none
  encryption : Option String := none
  deriving DecidableEq, Repr

structure DocExtractionResult where
  method : String
  pages : Nat
  text : String
  confidence : Option ℚ := none
  metadata : Option PyMuPDFMetadata := none
  deriving DecidableEq, Repr

structure CitiCertificateStructuredOutput where
  student_name : String
  record_id : String
  verification_url : String
  expiration_date : String
  curriculum_group : String
  course_learner_group : String
  university_name : String
  generated_on : String
  deriving DecidableEq, Repr

structure Verdict where
  decision : VerificationDecision
  comments : List String := ["Nothing suspicious found."]
  deriving DecidableEq, Repr

/-! ## The verification-URL pattern (`_verify_with_metadata_and_submitted_text`,
lines 228-235)

```
^(?:https:\\)?www\.citiprogram\.org/verify/\?w
  (?:[0-9a-f]{8}-[0-9a-f]{4}-[0-9a-f]{4}-[0-9a-f]{4}-[0-9a-f]{12})-(\d{8})$
```
compiled with `re.IGNORECASE` and applied with `.search`.  In the raw
pattern string `https:\\` is the two characters `:` `\`, so the optional
prefix matches the literal text `https:\` — not `https://`.  Since the
pattern is anchored with `^` and neither flag `re.MULTILINE` nor
`re.DOTALL` is set, `.search` behaves as a full match except that `$` also
accepts a single trailing `'\n'`.  All quantifiers are fixed-width, so the
only choice point is the optional prefix, handled by try-then-backtrack. -/
/-- Consume a literal, case-insensitively (`re.IGNORECASE`). -/
def eatLit : List Char → List Char → Option (List Char)
  | [], s => some s
  | _ :: _, [] => none
  | p :: ps, c :: cs => if c.toLower = p.toLower then eatLit ps cs else none

/-- Consume exactly `n` characters of class `p`. -/
def eatClass (p : Char → Bool) : Nat → List Char → Option (List Char)
  | 0, s => some s
  | _ + 1, [] => none
  | n + 1, c :: cs => if p c then eatClass p n cs else none

/-- Capture exactly `n` characters of class `p`, returning them and the rest. -/
def grabClass (p : Char → Bool) : Nat → List Char → Option (List Char × List Char)
  | 0, s => some ([], s)
  | _ + 1, [] => none
  | n + 1, c :: cs =>
    if p c then (grabClass p n cs).map (fun pr => (c :: pr.1, pr.2)) else none

/-- `$` without `re.MULTILINE`: end of input, or a single final `'\n'`. -/
def atEnd : List Char → Bool
  | [] => true
  | ['\n'] => true
  | _ => false

/-- The literal before the UUID token in the verification-URL pattern. -/
def urlHead : List Char := "www.citiprogram.org/verify/?w".data

/-- The pattern after the optional prefix; returns the captured group 1. -/
def citiUrlCore (s : List Char) : Option (List Char) :=
  (eatLit urlHead s).bind fun s =>
  (eatClass isHexCI 8 s).bind fun s =>
  (eatLit "-".data s).bind fun s =>
  (eatClass isHexCI 4 s).bind fun s =>
  (eatLit "-".data s).bind fun s =>
  (eatClass isHexCI 4 s).bind fun s =>
  (eatLit "-".data s).bind fun s =>
  (eatClass isHexCI 4 s).bind fun s =>
  (eatLit "-".data s).bind fun s =>
  (eatClass isHexCI 12 s).bind fun s =>
  (eatLit "-".data s).bind fun s =>
  (grabClass isDigitC 8 s).bind fun pr =>
  if atEnd pr.2 then some pr.1 else none

/-- `valid_url_pattern.search(url)`, returning `group(1)` on a match. -/
def citiUrlCapture (s : List Char) : Option (List Char) :=
  match eatLit "https:\\".data s with
  | some r => (citiUrlCore r).orElse fun _ => citiUrlCore s
  | none => citiUrlCore s

/-! ## `_format_pdf_date` (lines 294-297)

`datetime.strptime(date_str.replace("D:", "")[:8], "%Y%m%d").strftime("%d-%b-%Y")`.

`str.replace` deletes every (non-overlapping, left-to-right) occurrence of
`"D:"`; the slice keeps the first eight characters.  `strptime` is modelled
for its dominant case: the eight characters must be digits forming a valid
calendar date (`ValueError` otherwise).  CPython additionally accepts a
shorter all-digit tail whose month/day parts have one digit; no claim
depends on those inputs and the model treats them as `ValueError`. -/
def removeDColon : List Char → List Char
  | 'D' :: ':' :: rest => removeDColon rest
  | c :: rest => c :: removeDColon rest
  | [] => []

def digitVal (c : Char) : Nat := c.toNat - 48

def natOfDigits (l : List Char) : Nat := l.foldl (fun a c => a * 10 + digitVal c) 0

def isLeap (y : Nat) : Bool := (y % 4 = 0 && y % 100 ≠ 0) || y % 400 = 0

def daysInMonth (y m : Nat) : Nat :=
  if m = 2 then (if isLeap y then 29 else 28)
  else if m = 4 || m = 6 || m = 9 || m = 11 then 30
  else 31

def monthAbbrev : Nat → String
  | 1 => "Jan" | 2 => "Feb" | 3 => "Mar" | 4 => "Apr" | 5 => "May" | 6 => "Jun"
  | 7 => "Jul" | 8 => "Aug" | 9 => "Sep" | 10 => "Oct" | 11 => "Nov" | 12 => "Dec"
  | _ => ""

/-- Zero-pad a number to two digits (`%d` in `strftime`). -/
def pad2 (n : Nat) : String := if n < 10 then "0" ++ toString n else toString n

def formatPdfDate (dateStr : String) : Except PyErr String :=
  let eight := (removeDColon dateStr.data).take 8
  if eight.length = 8 ∧ eight.all isDigitC then
    let y := natOfDigits (eight.take 4)
    let m := natOfDigits ((eight.drop 4).take 2)
    let d := natOfDigits (eight.drop 6)
    if 1 ≤ y ∧ 1 ≤ m ∧ m ≤ 12 ∧ 1 ≤ d ∧ d ≤ daysInMonth y m then
      .ok (pad2 d ++ "-" ++ monthAbbrev m ++ "-" ++ toString y)
    else .error (.valueError "time data does not match format")
  else .error (.valueError "time data does not match format")

/-! ## `_verify_with_metadata_and_submitted_text` (lines 189-240)

The language-model call (`self.llm_client.chat.completions.create`, made
*before* the metadata check) is an oracle: `llm1` is either its structured
output or the exception it raised.  Exceptions — including the re-raised
`ValueError` from `_format_pdf_date` — propagate (`raise e`); every
mismatch is a soft `None`. -/
/-- `student_name.replace(" ", "").lower()`. -/
def normName (s : String) : String :=
  ⟨(s.data.filter (fun c => c ≠ ' ')).map Char.toLower⟩

def verifyWithMetadataAndSubmittedText
    (studentName : String) (extractionResult : DocExtractionResult)
    (llm1 : String → Except PyErr CitiCertificateStructuredOutput) :
    Except PyErr (Option CitiCertificateStructuredOutput) :=
  match llm1 extractionResult.text with
  | .error e => .error e
  | .ok structuredOutput =>
    match extractionResult.metadata with
    | none => .ok none
    | some docMetadata =>
      match formatPdfDate (docMetadata.creation_date.getD "") with
      | .error e => .error e
      | .ok creationDate =>
        if creationDate ≠ structuredOutput.generated_on then .ok none
        else if normName studentName ≠ normName structuredOutput.student_name then
          .ok none
        else
          match citiUrlCapture structuredOutput.verification_url.data with
          | none => .ok none
          | some g =>
            if String.mk g ≠ structuredOutput.record_id then .ok none
            else .ok (some structuredOutput)

/-! ## `_verify_with_cross_check_text` (lines 242-292)

The second inference call (deterministic, `temperature=0`) is again an
oracle.  The mismatch list is computed from
`structured_output.model_dump().keys()` — pydantic preserves declaration
order — excluding `"generated_on"`; each mismatching field name is rendered
with `" ".join(field.split("_")).title()`. -/
def citiFields : List String :=
  ["student_name", "record_id", "verification_url", "expiration_date",
   "curriculum_group", "course_learner_group", "university_name", "generated_on"]

def comparedFields : List String := citiFields.filter (fun f => f ≠ "generated_on")

/-- `getattr(record, field)` for the eight schema fields. -/
def getField (r : CitiCertificateStructuredOutput) (f : String) : String :=
  if f = "student_name" then r.student_name
  else if f = "record_id" then r.record_id
  else if f = "verification_url" then r.verification_url
  else if f = "expiration_date" then r.expiration_date
  else if f = "curriculum_group" then r.curriculum_group
  else if f = "course_learner_group" then r.course_learner_group
  else if f = "university_name" then r.university_name
  else if f = "generated_on" then r.generated_on
  else ""

/-- `field.split("_")` (Python `str.split` with a one-character separator). -/
def splitUnderscore : List Char → List (List Char)
  | [] => [[]]
  | '_' :: rest => [] :: splitUnderscore rest
  | c :: rest =>
    match splitUnderscore rest with
    | [] => [[c]]
    | g :: gs => (c :: g) :: gs

/-- `" ".join(parts)`. -/
def joinSpace : List (List Char) → List Char
  | [] => []
  | [g] => g
  | g :: gs => g ++ ' ' :: joinSpace gs

/-- Python `str.title()` on ASCII text: a letter is uppercased when the
previous character is not a letter, lowercased otherwise. -/
def pyTitleAux : Bool → List Char → List Char
  | _, [] => []
  | prevAlpha, c :: cs =>
    if isAsciiAlpha c then
      (if prevAlpha then c.toLower else c.toUpper) :: pyTitleAux true cs
    else c :: pyTitleAux false cs

/-- `" ".join(field.split("_")).title()`. -/
def humanizeField (f : String) : String :=
  ⟨pyTitleAux false (joinSpace (splitUnderscore f.data))⟩

/-- The mismatch-list comprehension of `_verify_with_cross_check_text`,
given both structured outputs. -/
def missMatches (a b : CitiCertificateStructuredOutput) : List String :=
  (comparedFields.filter (fun f => clean (getField a f) ≠ clean (getField b f))).map
    humanizeField

/-- `_verify_with_cross_check_text` with the deterministic inference call as
an oracle over the prompt text; an inference failure propagates (`raise e`). -/
def verifyWithCrossCheckText (structuredOutput : CitiCertificateStructuredOutput)
    (crossCheckExtraction : DocExtractionResult)
    (llm2 : String → Except PyErr CitiCertificateStructuredOutput) :
    Except PyErr (List String) :=
  match llm2 crossCheckExtraction.text with
  | .error e => .error e
  | .ok crossCheckOutput => .ok (missMatches structuredOutput crossCheckOutput)

/-! ## Document service (`app/services/document_service.py`)

A PDF, once opened by the external parser, is a list of pages — each with
its embedded text layer and its OCR token table (what
`pytesseract.image_to_data` returns for the page image rendered at
300 dpi) — plus the document metadata.  `pymupdf.open` itself is an oracle
(`Except PyErr PdfDoc`) supplied by the caller's environment. -/
structure OcrWord where
  /-- The `text` column; `NaN` cells (modelled `none`) become `""` via `fillna`. -/
  text : Option String
  /-- The `conf` column.  Pandas floats are modelled as rationals. -/
  conf : ℚ
  deriving DecidableEq, Repr

structure PdfPage where
  digitalText : String
  ocrWords : List OcrWord
  deriving DecidableEq, Repr

structure PdfDoc where
  pages : List PdfPage
  metadata : PyMuPDFMetadata
  deriving DecidableEq, Repr

/-- Python `str.strip()`: drop ASCII whitespace at both ends. -/
def pyStripL (l : List Char) : List Char :=
  ((l.dropWhile isWs).reverse.dropWhile isWs).reverse

def pyStrip (s : String) : String := ⟨pyStripL s.data⟩

/-- `re.sub(r"\s+", " ", text)`: each maximal whitespace run becomes one `' '`. -/
def collapseWs : List Char → List Char
  | [] => []
  | c :: cs =>
    if isWs c then
      match cs with
      | d :: _ => if isWs d then collapseWs cs else ' ' :: collapseWs cs
      | [] => [' ']
    else c :: collapseWs cs

/-- `re.sub(r"\n+", "\n", text)`: each maximal newline run becomes one `'\n'`. -/
def collapseNl : List Char → List Char
  | [] => []
  | c :: cs =>
    if c = '\n' then
      match cs with
      | d :: _ => if d = '\n' then collapseNl cs else '\n' :: collapseNl cs
      | [] => ['\n']
    else c :: collapseNl cs

/-- `DocumentService._clean_text`. -/
def cleanText (s : String) : String := ⟨pyStripL (collapseNl (collapseWs s.data))⟩

/-- `Path(filename).suffix.lower().lstrip(".")`: the basename's extension
after its last dot (empty when the dot is absent, leading, or final),
lowercased; `lstrip(".")` then removes the suffix's leading dot. -/
def fileExtension (filename : String) : String :=
  let revName := filename.data.reverse.takeWhile (fun c => c ≠ '/')
  let afterDot := revName.takeWhile (fun c => c ≠ '.')
  match revName.dropWhile (fun c => c ≠ '.') with
  | '.' :: rest =>
    if rest ≠ [] ∧ afterDot ≠ [] then ⟨afterDot.reverse.map Char.toLower⟩ else ""
  | _ => ""

/-- The `full_text` computed by `_extract_with_pymupdf`: per-page text
layers are stripped, empty pages skipped, pages joined with `"\n\n"`, the
result cleaned. -/
def pymupdfText (doc : PdfDoc) : String :=
  cleanText (String.intercalate "\n\n"
    ((doc.pages.map (fun p => pyStrip p.digitalText)).filter (fun t => t ≠ "")))

/-- `_extract_with_pymupdf` on an already-opened document; `pages` is the
document's full page count. -/
def extractWithPymupdf (doc : PdfDoc) : DocExtractionResult :=
  { method := "pymupdf"
    pages := doc.pages.length
    text := pymupdfText doc
    confidence := some (if pyStrip (pymupdfText doc) ≠ "" then (99 : ℚ) else 0)
    metadata := some doc.metadata }

/-- Sum of a list of rationals. -/
def ratSum (l : List ℚ) : ℚ := l.foldl (· + ·) 0

/-- `Series.mean().round(2)` of the kept confidences, as an exact rational
(round-half-even as numpy does); `none` models the NaN mean of an empty
selection.  No claim depends on this value. -/
def meanRound2 (l : List ℚ) : Option ℚ :=
  match l with
  | [] => none
  | _ =>
    let m := ratSum l / l.length
    let scaled := m * 100
    let fl := ⌊scaled⌋
    let r := scaled - fl
    let rounded : ℤ :=
      if r < 1/2 then fl
      else if 1/2 < r then fl + 1
      else if fl % 2 = 0 then fl else fl + 1
    some ((rounded : ℚ) / 100)

/-- `_extract_with_tesseract`: loads page 0 only (`doc.load_page(0)` raises
on an empty document), keeps tokens with confidence above 70, joins their
stripped texts with spaces; `pages` is the constant 1. -/
def extractWithTesseract (doc : PdfDoc) : Except PyErr DocExtractionResult :=
  match doc.pages with
  | [] => .error (.exc "page 0 is not in document")
  | p0 :: _ =>
    let kept := p0.ocrWords.filter (fun w => 70 < w.conf)
    let text := String.intercalate " " (kept.map (fun w => pyStrip (w.text.getD "")))
    .ok { method := "tesseract"
          pages := 1
          text := cleanText text
          confidence := meanRound2 (kept.map (fun w => w.conf))
          metadata := some doc.metadata }

/-- `DocumentService.extract_text`: extension gate, then digital-first with
the `len(result.text.strip()) > 50` cutoff, else the OCR fallback.  The
surrounding `except Exception as e: raise Exception(str(e))` rewraps any
failure as a generic exception. -/
def extractText (openResult : Except PyErr PdfDoc) (filename : String) :
    Except PyErr DocExtractionResult :=
  let ext := fileExtension filename
  let body : Except PyErr DocExtractionResult :=
    if ext ≠ "pdf" then .error (.exc ("Unsupported file format ." ++ ext))
    else
      match openResult with
      | .error e => .error e
      | .ok doc =>
        let result := extractWithPymupdf doc
        if result.text ≠ "" ∧ 50 < (pyStrip result.text).length then .ok result
        else extractWithTesseract doc
  match body with
  | .ok r => .ok r
  | .error e => .error (.exc e.msg)

/-! ## The orchestrator (`CitiCertVerificationService`)

Database rows joined by `_get_submission_data`, and the run environment:
every external collaborator of one `verify_certificate_submission` call as
an oracle.  Opaque byte strings are `List Nat`. -/
structure SubmissionRow where
  id : String
  file_object_name : String
  filename : String
  requirement_schedule_id : String
  submission_status : SubmissionStatus
  deriving DecidableEq, Repr

structure StudentRow where
  user_id : String
  deriving DecidableEq, Repr

structure UserRow where
  first_name : String
  last_name : String
  deriving DecidableEq, Repr

structure Env where
  /-- The `(CertificateSubmission, Student, User)` row for the submission id,
  `none` when the `SELECT ... WHERE id = submission_id` finds nothing. -/
  submissionRow : Option (SubmissionRow × StudentRow × UserRow)
  /-- `minio_service.get_file(...)["success"]`. -/
  fileGetSuccess : Bool
  /-- `pymupdf.open` on the submitted file's bytes. -/
  submittedDoc : Except PyErr PdfDoc
  /-- First (non-deterministic) structured-extraction inference call,
  keyed by the extracted text it is prompted with. -/
  llm1 : String → Except PyErr CitiCertificateStructuredOutput
  /-- `download_certificate_from_url`, keyed by the URL it is given. -/
  download : String → Except PyErr (List Nat)
  /-- `minio_service.upload_bytes(...)["success"]`. -/
  uploadSuccess : Bool
  /-- `pymupdf.open` on the downloaded certificate bytes. -/
  crossDoc : Except PyErr PdfDoc
  /-- Second (deterministic) structured-extraction inference call,
  keyed by the extracted text it is prompted with. -/
  llm2 : String → Except PyErr CitiCertificateStructuredOutput

/-- `self.verdict` as set in `CitiCertVerificationService.__init__`. -/
def initVerdict : Verdict :=
  { decision := .APPROVE
    comments := ["Submitted certificate is valid and verified by the system."] }

/-- `self.decision_mapping`. -/
def decisionMapping : VerificationDecision → SubmissionStatus
  | .APPROVE => .APPROVED
  | .REJECT => .REJECTED
  | .MANUAL_REVIEW => .MANUAL_REVIEW

def tamperVerdict : Verdict :=
  { decision := .REJECT
    comments := ["Document metadata or content did not match expected values. Possible tampering detected."] }

def crossCheckVerdict (missList : List String) : Verdict :=
  { decision := .REJECT
    comments := ["The following fields did not match during cross-check.\n "
      ++ String.intercalate ", " missList] }

def genericErrorVerdict : Verdict :=
  { decision := .REJECT
    comments := ["Unexpected error occurred during the automated verification process, thus rejected. You can resubmit or contact support."] }

/-- The `VerificationHistory` row written by `_save_verification_result`
(`verifier_id=None`, `verification_type=AGENT`). -/
structure VerificationHistoryEntry where
  submission_id : String
  verifier_id : Option String := none
  verification_type : String := "AGENT"
  old_status : SubmissionStatus
  new_status : SubmissionStatus
  comments : String
  deriving DecidableEq, Repr

/-! ### `_update_dashboard_stats` (lines 327-356) and the callee signature

`update_dashboard_stats_by_schedule` (dashboard_stats_service.py lines
31-36) accepts exactly the keyword parameters below; the orchestrator calls
it with `requirement_schedule_id=...` plus the decision's delta dictionary
expanded with `**deltas`.  Python binds keyword arguments by name and
raises `TypeError` at the first keyword that matches no parameter. -/
def statsAcceptedParams : List String :=
  ["requirement_schedule_id", "agent_verification_increment",
   "manual_verification_increment"]

/-- `decision_deltas[decision]` as an ordered association list. -/
def decisionDeltas : VerificationDecision → List (String × Int)
  | .APPROVE =>
    [("approved_count_delta", 1), ("pending_count_delta", -1),
     ("agent_verification_count_delta", 1)]
  | .REJECT => [("rejected_count_delta", 1), ("pending_count_delta", -1)]
  | .MANUAL_REVIEW => [("manual_review_count_delta", 1), ("pending_count_delta", -1)]

/-- Keyword binding for the
`update_dashboard_stats_by_schedule(requirement_schedule_id=..., **deltas)`
call: succeeds only if every passed keyword names a parameter. -/
def bindStatsKwargs (decision : VerificationDecision) : Except PyErr Unit :=
  let passed := "requirement_schedule_id" :: (decisionDeltas decision).map Prod.fst
  match passed.find? (fun k => !statsAcceptedParams.contains k) with
  | some k => .error (.typeError k)
  | none => .ok ()

/-- `self._notify`'s decision-keyed notification codes. -/
def notificationCode : VerificationDecision → String
  | .APPROVE => "certificate_submission_verify"
  | .REJECT => "certificate_submission_reject"
  | .MANUAL_REVIEW => "certificate_submission_request"

/-- Externally observable outcome of one `verify_certificate_submission`
call.  Log statements are not modelled. -/
structure RunOutcome where
  /-- Final value of `self.verdict`. -/
  verdict : Verdict
  /-- The history row committed by `_save_verification_result`, if reached. -/
  savedHistory : Option VerificationHistoryEntry
  /-- Whether the dashboard-stats update completed. -/
  statsApplied : Bool
  /-- The notification code passed to `create_notification_sync`, if reached. -/
  notified : Option String
  /-- Whether `_verify_with_cross_check_text` ran to completion. -/
  crossChecked : Bool
  /-- The exception escaping to the caller, if any. -/
  raised : Option PyErr
  deriving DecidableEq, Repr

/-- The `try` body of `verify_certificate_submission`: final verdict and
whether the cross-check stage completed, or the in-flight exception. -/
def runBody (env : Env) : Except PyErr (Verdict × Bool) :=
  match env.submissionRow with
  | none =>
    -- `_get_submission_data` raises when the join returns no row.
    .error (.valueError "Certificate submission not found.")
  | some (submission, _student, user) =>
    let studentName := user.first_name ++ " " ++ user.last_name
    if !env.fileGetSuccess then
      .error (.fileNotFound ("Failed to retrieve file "
        ++ submission.file_object_name))
    else
      match extractText env.submittedDoc submission.filename with
      | .error e => .error e
      | .ok submittedExtraction =>
        match verifyWithMetadataAndSubmittedText studentName submittedExtraction
            env.llm1 with
        | .error e => .error e
        | .ok none => .ok (tamperVerdict, false)
        | .ok (some so) =>
          match env.download ("https://" ++ so.verification_url) with
          | .error e => .error e
          | .ok _certBytes =>
            -- `upload_bytes` failure only emits `logger.warning(...)`.
            let _uploadOk := env.uploadSuccess
            match extractText env.crossDoc submission.filename with
            | .error e => .error e
            | .ok crossCheckExtraction =>
              match verifyWithCrossCheckText so crossCheckExtraction env.llm2 with
              | .error e => .error e
              | .ok missList =>
                if missList ≠ [] then .ok (crossCheckVerdict missList, true)
                else .ok (initVerdict, true)

/-- `verify_certificate_submission(request_id, submission_id)` end to end:
the `try` body, the catch-all `except`, and the `finally` block.  When the
lookup failed, `submission_data` is still `{}`, so
`submission_data["submission"]` raises `KeyError` inside `finally`. -/
def runVerify (env : Env) : RunOutcome :=
  let (verdict, crossChecked) :=
    match runBody env with
    | .ok (v, cc) => (v, cc)
    | .error _ => (genericErrorVerdict, false)
  match env.submissionRow with
  | none =>
    { verdict := verdict, savedHistory := none, statsApplied := false,
      notified := none, crossChecked := crossChecked,
      raised := some (.keyError "submission") }
  | some (submission, _student, _user) =>
    if submission.id ≠ "" then
      let hist : VerificationHistoryEntry :=
        { submission_id := submission.id
          old_status := submission.submission_status
          new_status := decisionMapping verdict.decision
          comments := String.intercalate "\n" verdict.comments }
      match bindStatsKwargs verdict.decision with
      | .error e =>
        { verdict := verdict, savedHistory := some hist, statsApplied := false,
          notified := none, crossChecked := crossChecked, raised := some e }
      | .ok _ =>
        { verdict := verdict, savedHistory := some hist, statsApplied := true,
          notified := some (notificationCode verdict.decision),
          crossChecked := crossChecked, raised := none }
    else
      { verdict := verdict, savedHistory := none, statsApplied := false,
        notified := none, crossChecked := crossChecked, raised := none }

/-! ## Decorations: pairs that differ only by interior spaces, letter case,
or parenthetical annotations

`Decor b t` says `t` arises from the base string `b` by inserting `' '`
characters, inserting parenthetical annotations `(w)`, and varying letter
case; base characters and annotation contents are free of parentheses and
newlines.  Two strings decorating the same base differ only by those
edits. -/
def simpleChar (c : Char) : Prop := c ≠ '(' ∧ c ≠ ')' ∧ c ≠ '\n'

instance (c : Char) : Decidable (simpleChar c) := by
  unfold simpleChar; infer_instance

inductive Decor : List Char → List Char → Prop where
  | nil : Decor [] []
  | space {b t : List Char} : Decor b t → Decor b (' ' :: t)
  | annot {b t : List Char} (w : List Char) (hw : ∀ c ∈ w, simpleChar c) :
      Decor b t → Decor b ('(' :: (w ++ ')' :: t))
  | char {b t : List Char} (c cv : Char) (hc : simpleChar c) (hcv : simpleChar cv)
      (hsp : c = ' ' ↔ cv = ' ') (hl : cv.toLower = c.toLower) :
      Decor b t → Decor (c :: b) (cv :: t)

/-- A metadata-free extraction result, used by the C5 artifacts. -/
def erNoMetadata : DocExtractionResult :=
  { method := "pymupdf", pages := 1, text := "t", metadata := none }

/-- A sample structured output, used by the C5 artifacts. -/
def soSample : CitiCertificateStructuredOutput :=
  { student_name := "Jane Doe"
    record_id := "20250114"
    verification_url := "u"
    expiration_date := "N/A"
    curriculum_group := "g"
    course_learner_group := "h"
    university_name := "k"
    generated_on := "14-Jan-2025" }

/-- A scheme-less candidate URL assembled from its hex and digit parts. -/
def mkSchemelessUrl (h8 h4a h4b h4c h12 d8 : List Char) : List Char :=
  urlHead ++ (h8 ++ '-' :: (h4a ++ '-' :: (h4b ++ '-' :: (h4c ++ '-' :: (h12 ++ '-' :: d8)))))

/-- An extraction result whose metadata matches scenario A of the spec. -/
def erScenarioA : DocExtractionResult :=
  { method := "pymupdf", pages := 1, text := "certificate text",
    metadata := some { creation_date := some "D:20250114031902" } }

/-- A structured output carrying the scenario-A URL with its `https://`
scheme, and otherwise fully matching fields. -/
def soHttpsUrl : CitiCertificateStructuredOutput :=
  { student_name := "Jane Doe"
    record_id := "20250114"
    verification_url :=
      "https://www.citiprogram.org/verify/?w12345678-1234-1234-1234-123456789abc-20250114"
    expiration_date := "N/A"
    curriculum_group := "Responsible Conduct of Research"
    course_learner_group := "Undergraduate Students"
    university_name := "King Mongkut University of Technology Thonburi"
    generated_on := "14-Jan-2025" }

/-- A one-page document with no OCR tokens, for the C9 witness. -/
def docOnePage : PdfDoc :=
  { pages := [{ digitalText := "", ocrWords := [] }], metadata := {} }

/-- The extraction result the OCR fallback produces on `docOnePage`. -/
def resOnePage : DocExtractionResult :=
  { method := "tesseract", pages := 1, text := "", confidence := none,
    metadata := some {} }

/-- A page with the given digital text layer and no OCR tokens. -/
def pageOf (t : String) : PdfPage := { digitalText := t, ocrWords := [] }

/-- A two-page document whose first page has a long digital text layer,
for the C6 witness. -/
def docLongText : PdfDoc :=
  { pages :=
      [pageOf "This is to certify completion of the required training program.",
       pageOf "second page"]
    metadata := {} }

/-- `docLongText` with the text layers blanked, so extraction falls back. -/
def docShortText : PdfDoc :=
  { pages := [pageOf "", pageOf ""], metadata := {} }

/-- An environment whose submission lookup finds nothing. -/
def envMissing : Env :=
  { submissionRow := none
    fileGetSuccess := false
    submittedDoc := .error (.exc "e")
    llm1 := fun _ => .error (.exc "e")
    download := fun _ => .error (.exc "e")
    uploadSuccess := false
    crossDoc := .error (.exc "e")
    llm2 := fun _ => .error (.exc "e") }

/-- The first keyword of `decision_deltas[d]`, which
`update_dashboard_stats_by_schedule` does not accept. -/
def firstBadKwarg : VerificationDecision → String
  | .APPROVE => "approved_count_delta"
  | .REJECT => "rejected_count_delta"
  | .MANUAL_REVIEW => "manual_review_count_delta"

/-- A located submission row, for the C2 witness. -/
def subLocated : SubmissionRow :=
  { id := "sub-1", file_object_name := "obj", filename := "cert.pdf",
    requirement_schedule_id := "sched-1", submission_status := .PENDING }

/-- An environment whose submission lookup succeeds (the rest of the
pipeline fails early, which does not matter for finalization). -/
def envLocated : Env :=
  { submissionRow := some (subLocated, { user_id := "user-1" },
      { first_name := "Jane", last_name := "Doe" })
    fileGetSuccess := false
    submittedDoc := .error (.exc "e")
    llm1 := fun _ => .error (.exc "e")
    download := fun _ => .error (.exc "e")
    uploadSuccess := true
    crossDoc := .error (.exc "e")
    llm2 := fun _ => .error (.exc "e") }

/-- Scenario-C structured output of the submitted document. -/
def soScenC : CitiCertificateStructuredOutput :=
  { student_name := "Jane Doe"
    record_id := "20250114"
    verification_url :=
      "www.citiprogram.org/verify/?w12345678-1234-1234-1234-123456789abc-20250114"
    expiration_date := "N/A"
    curriculum_group := "Responsible Conduct of Research (Curriculum Group)"
    course_learner_group := "Undergraduate Students"
    university_name := "King Mongkut University of Technology Thonburi"
    generated_on := "14-Jan-2025" }

/-- Scenario-C structured output of the authoritative document: the
curriculum group differs only by its parenthetical annotation (normalized
away), the university name differs substantively. -/
def soScenCCross : CitiCertificateStructuredOutput :=
  { soScenC with
    curriculum_group := "Responsible Conduct of Research"
    university_name := "Other University" }

/-- Scenario-C submitted document: a one-page digital PDF whose metadata
creation date matches `generated_on`. -/
def docScenC : PdfDoc :=
  { pages :=
      [pageOf "This is to certify that Jane Doe completed the required training."]
    metadata := { creation_date := some "D:20250114031902" } }

/-- Scenario-C authoritative document as downloaded and re-extracted. -/
def docScenCCross : PdfDoc :=
  { pages :=
      [pageOf "Authoritative completion report for Jane Doe from the issuer site."]
    metadata := { creation_date := some "D:20250114031902" } }

/-- Scenario-C submission row. -/
def subScenC : SubmissionRow :=
  { id := "sub-2", file_object_name := "obj", filename := "cert.pdf",
    requirement_schedule_id := "sched-1", submission_status := .PENDING }

/-- The full scenario-C environment. -/
def envScenC : Env :=
  { submissionRow := some (subScenC, { user_id := "user-1" },
      { first_name := "Jane", last_name := "Doe" })
    fileGetSuccess := true
    submittedDoc := .ok docScenC
    llm1 := fun _ => .ok soScenC
    download := fun _ => .ok []
    uploadSuccess := false
    crossDoc := .ok docScenCCross
    llm2 := fun _ => .ok soScenCCross }

/-! # Theorems -/

theorem afterClose_length : ∀ {cs rest : List Char},
    afterClose cs = some rest → rest.length < cs.length := by
  intro cs
  induction cs with
  | nil => intro rest h; simp [afterClose] at h
  | cons c cs ih =>
    intro rest h
    rw [afterClose] at h
    split at h
    · injection h with h2
      subst h2
      simp only [List.length_cons]
      omega
    · split at h
      · cases h
      · have := ih h
        simp only [List.length_cons]
        omega

theorem stripParensF_fuel_eq : ∀ (n f g : Nat) (s : List Char),
    s.length ≤ n → s.length ≤ f → s.length ≤ g →
    stripParensF f s = stripParensF g s := by
  intro n
  induction n with
  | zero =>
    intro f g s hn _ _
    have : s = [] := List.eq_nil_of_length_eq_zero (Nat.le_zero.mp hn)
    subst this
    cases f <;> cases g <;> rfl
  | succ n ih =>
    intro f g s hn hf hg
    match s with
    | [] => cases f <;> cases g <;> rfl
    | c :: cs =>
      simp only [List.length_cons] at hn hf hg
      match f, g with
      | f + 1, g + 1 =>
        simp only [stripParensF]
        by_cases hc : c = '('
        · simp only [if_pos hc]
          match hac : afterClose cs with
          | some rest =>
            have hlt := afterClose_length hac
            exact ih f g rest (by omega) (by omega) (by omega)
          | none =>
            have := ih f g cs (by omega) (by omega) (by omega)
            rw [this]
        · simp only [if_neg hc]
          have := ih f g cs (by omega) (by omega) (by omega)
          rw [this]

@[simp] theorem stripParens_nil : stripParens [] = [] := rfl

theorem stripParens_cons (c : Char) (cs : List Char) :
    stripParens (c :: cs) =
      (if c = '(' then
        match afterClose cs with
        | some rest => stripParens rest
        | none => c :: stripParens cs
      else c :: stripParens cs) := by
  show stripParensF (cs.length + 1) (c :: cs) = _
  simp only [stripParensF]
  by_cases hc : c = '('
  · simp only [if_pos hc]
    cases hac : afterClose cs with
    | some rest =>
      simp only [hac]
      have hlt := afterClose_length hac
      exact stripParensF_fuel_eq cs.length cs.length rest.length rest
        (by omega) (by omega) le_rfl
    | none =>
      simp only [hac]
      rfl
  · simp only [if_neg hc]
    rfl

theorem stripParens_cons_not_open {c : Char} (h : c ≠ '(') (cs : List Char) :
    stripParens (c :: cs) = c :: stripParens cs := by
  rw [stripParens_cons, if_neg h]

theorem stripParens_cons_open {cs rest : List Char} (h : afterClose cs = some rest) :
    stripParens ('(' :: cs) = stripParens rest := by
  rw [stripParens_cons, if_pos rfl, h]

theorem afterClose_annot : ∀ (w : List Char) (t : List Char),
    (∀ c ∈ w, simpleChar c) → afterClose (w ++ ')' :: t) = some t := by
  intro w
  induction w with
  | nil => intro t _; simp [afterClose]
  | cons c w ih =>
    intro t hw
    have hc := hw c (by simp)
    simp only [List.cons_append, afterClose, if_neg hc.2.1, if_neg hc.2.2]
    exact ih t (fun d hd => hw d (by simp [hd]))

theorem cleanL_of_decor : ∀ {b t : List Char}, Decor b t →
    cleanL t = (b.filter (fun c => c ≠ ' ')).map Char.toLower := by
  intro b t h
  induction h with
  | nil => rfl
  | space h ih =>
    unfold cleanL at ih ⊢
    rw [stripParens_cons_not_open (by decide)]
    simpa using ih
  | annot w hw h ih =>
    unfold cleanL at ih ⊢
    rw [stripParens_cons_open (afterClose_annot w _ hw)]
    exact ih
  | char c cv hc hcv hsp hl h ih =>
    unfold cleanL at ih ⊢
    rw [stripParens_cons_not_open hcv.1]
    by_cases hcsp : c = ' '
    · have hcvsp : cv = ' ' := hsp.mp hcsp
      simp only [List.filter_cons, hcsp, hcvsp]
      simpa using ih
    · have hcvsp : cv ≠ ' ' := fun hh => hcsp (hsp.mpr hh)
      simp only [List.filter_cons, if_pos (by simpa using hcvsp),
        decide_eq_true_eq, List.map_cons, ih, hl]
      simp [hcsp]

/-- C7: corrected.  The claim quantifies over *all* pairs differing only by
interior whitespace, case, or parenthetical annotations; it fails (a) for
non-space whitespace — `.replace(" ", "")` deletes only `' '`, so a tab
survives normalization — and (b) for an annotation whose content itself
contains parentheses — the lazy pattern `\(.*?\)` closes at the inner
`')'` and leaves a stray `')'` behind. -/
theorem clean_whitespace_case_paren_counterexample :
    ("a\tb".data = ['a'] ++ '\t' :: ['b'] ∧ "ab".data = ['a'] ++ ['b'] ∧
      isWs '\t' = true ∧ clean "a\tb" ≠ clean "ab")
    ∧ ("a((x))".data = ['a'] ++ '(' :: (['(', 'x', ')'] ++ ')' :: []) ∧
      "a".data = ['a'] ++ ([] : List Char) ∧ clean "a((x))" ≠ clean "a") := by
  refine ⟨⟨rfl, rfl, rfl, ?_⟩, rfl, rfl, ?_⟩ <;> decide

/-- C7: amended invariance.  For pairs that differ only by interior spaces,
letter case, or parenthetical annotations — with annotation contents and
the shared underlying text free of parentheses and newline characters —
the cross-check normalizer `clean` maps both strings to the same result. -/
theorem clean_eq_of_decorations (b : List Char) (s t : String)
    (hs : Decor b s.data) (ht : Decor b t.data) : clean s = clean t :=
  congrArg String.mk ((cleanL_of_decor hs).trans (cleanL_of_decor ht).symm)

/-- C7 witness: `"A (x)"` and `"a"` decorate the base `['a']`, and `clean`
agrees on them. -/
theorem clean_eq_of_decorations_witness : clean "A (x)" = clean "a" :=
  clean_eq_of_decorations ['a'] "A (x)" "a"
    (Decor.char 'a' 'A' (by decide) (by decide) (by decide) (by decide)
      (Decor.space (Decor.annot ['x'] (by decide) Decor.nil)))
    (Decor.char 'a' 'a' (by decide) (by decide) (by decide) (by decide) Decor.nil)

/-! ## C4: the orchestrator's initial verdict -/
/-- C4: counterexample.  The verdict in effect before any pipeline stage
assigns one — `self.verdict` as set in `__init__` — does not have decision
REJECT. -/
theorem initVerdict_not_reject : ¬ initVerdict.decision = VerificationDecision.REJECT := by
  decide

/-- C4: amended.  The orchestrator's default verdict — the value of
`self.verdict` before any stage overwrites it, and the verdict that stands
when every stage passes — is APPROVE with the fixed approval comment;
REJECT verdicts are produced only by the explicit failure branches. -/
theorem initVerdict_is_approve :
    initVerdict =
      { decision := VerificationDecision.APPROVE,
        comments :=
          ["Submitted certificate is valid and verified by the system."] } := rfl

/-- C5: counterexample.  With metadata absent and a failing structured-field
inference call, the validator raises the inference error instead of
returning the soft `None`: the inference call precedes the metadata check. -/
theorem validator_metadata_check_after_llm_counterexample :
    verifyWithMetadataAndSubmittedText "Jane Doe" erNoMetadata
        (fun _ => .error (.exc "inference failed"))
      = .error (.exc "inference failed")
    ∧ verifyWithMetadataAndSubmittedText "Jane Doe" erNoMetadata
        (fun _ => .error (.exc "inference failed"))
      ≠ .ok none := by
  refine ⟨rfl, fun h => ?_⟩
  rw [show verifyWithMetadataAndSubmittedText "Jane Doe" erNoMetadata
      (fun _ => .error (.exc "inference failed"))
    = Except.error (.exc "inference failed") from rfl] at h
  exact Except.noConfusion h

/-- C5: amended.  For every submitter name and every extraction result
without metadata, the validator returns the soft `None` — provided the
structured-field inference call (which runs first) succeeds. -/
theorem validator_none_of_metadata_absent (name : String)
    (er : DocExtractionResult)
    (llm : String → Except PyErr CitiCertificateStructuredOutput)
    (rec : CitiCertificateStructuredOutput)
    (hmeta : er.metadata = none) (hllm : llm er.text = .ok rec) :
    verifyWithMetadataAndSubmittedText name er llm = .ok none := by
  unfold verifyWithMetadataAndSubmittedText
  rw [hllm, hmeta]

/-- C5 witness: a concrete metadata-free extraction with a succeeding
inference call yields the soft `None`. -/
theorem validator_none_of_metadata_absent_witness :
    verifyWithMetadataAndSubmittedText "Jane Doe" erNoMetadata
        (fun _ => .ok soSample)
      = .ok none :=
  validator_none_of_metadata_absent "Jane Doe" erNoMetadata
    (fun _ => .ok soSample) soSample rfl rfl

/-! ## C3: the verification-URL check -/
theorem eatLit_append : ∀ (p s : List Char), eatLit p (p ++ s) = some s := by
  intro p
  induction p with
  | nil => intro s; rfl
  | cons c cs ih => intro s; simp [eatLit, ih]

theorem eatClass_append (p : Char → Bool) :
    ∀ (l : List Char), (∀ c ∈ l, p c = true) →
      ∀ s, eatClass p l.length (l ++ s) = some s := by
  intro l
  induction l with
  | nil => intro _ s; rfl
  | cons c cs ih =>
    intro h s
    have hc := h c (by simp)
    simp only [List.length_cons, List.cons_append, eatClass, if_pos hc]
    exact ih (fun d hd => h d (by simp [hd])) s

theorem grabClass_append (p : Char → Bool) :
    ∀ (l : List Char), (∀ c ∈ l, p c = true) →
      ∀ s, grabClass p l.length (l ++ s) = some (l, s) := by
  intro l
  induction l with
  | nil => intro _ s; rfl
  | cons c cs ih =>
    intro h s
    have hc := h c (by simp)
    simp only [List.length_cons, List.cons_append, grabClass, if_pos hc]
    rw [show cs.append s = cs ++ s from rfl, ih (fun d hd => h d (by simp [hd])) s]
    rfl

theorem eatClass_of_len (p : Char → Bool) {n : Nat} {l : List Char}
    (hl : l.length = n) (hc : ∀ c ∈ l, p c = true) (s : List Char) :
    eatClass p n (l ++ s) = some s := by
  subst hl; exact eatClass_append p l hc s

theorem grabClass_of_len (p : Char → Bool) {n : Nat} {l : List Char}
    (hl : l.length = n) (hc : ∀ c ∈ l, p c = true) :
    grabClass p n l = some (l, []) := by
  subst hl
  have := grabClass_append p l hc []
  rwa [List.append_nil] at this

theorem dash_eat : ∀ s : List Char, eatLit "-".data ('-' :: s) = some s := fun _ => rfl

theorem citiUrlCapture_schemeless (h8 h4a h4b h4c h12 d8 : List Char)
    (hh8 : h8.length = 8) (hc8 : ∀ c ∈ h8, isHexCI c = true)
    (hh4a : h4a.length = 4) (hc4a : ∀ c ∈ h4a, isHexCI c = true)
    (hh4b : h4b.length = 4) (hc4b : ∀ c ∈ h4b, isHexCI c = true)
    (hh4c : h4c.length = 4) (hc4c : ∀ c ∈ h4c, isHexCI c = true)
    (hh12 : h12.length = 12) (hc12 : ∀ c ∈ h12, isHexCI c = true)
    (hd8 : d8.length = 8) (hcd8 : ∀ c ∈ d8, isDigitC c = true) :
    citiUrlCapture (mkSchemelessUrl h8 h4a h4b h4c h12 d8) = some d8 := by
  have hcap : citiUrlCapture (mkSchemelessUrl h8 h4a h4b h4c h12 d8)
      = citiUrlCore (mkSchemelessUrl h8 h4a h4b h4c h12 d8) := rfl
  rw [hcap]
  unfold mkSchemelessUrl citiUrlCore
  rw [eatLit_append urlHead]
  simp only [Option.bind]
  rw [eatClass_of_len isHexCI hh8 hc8]
  simp only [Option.bind]
  rw [dash_eat]
  simp only [Option.bind]
  rw [eatClass_of_len isHexCI hh4a hc4a]
  simp only [Option.bind]
  rw [dash_eat]
  simp only [Option.bind]
  rw [eatClass_of_len isHexCI hh4b hc4b]
  simp only [Option.bind]
  rw [dash_eat]
  simp only [Option.bind]
  rw [eatClass_of_len isHexCI hh4c hc4c]
  simp only [Option.bind]
  rw [dash_eat]
  simp only [Option.bind]
  rw [eatClass_of_len isHexCI hh12 hc12]
  simp only [Option.bind]
  rw [dash_eat]
  simp only [Option.bind]
  rw [grabClass_of_len isDigitC hd8 hcd8]
  simp only [Option.bind]
  rfl

/-- C3: counterexample.  The raw pattern `(?:https:\\)?` matches the literal
text `https:\`, not `https://`, so the scenario-A URL *with* its `https://`
scheme fails the pattern (`search` returns no match) and the validator soft
rejects the otherwise fully matching submission. -/
theorem url_check_https_counterexample :
    citiUrlCapture soHttpsUrl.verification_url.data = none
    ∧ verifyWithMetadataAndSubmittedText "Jane Doe" erScenarioA
        (fun _ => .ok soHttpsUrl) = .ok none :=
  ⟨rfl, rfl⟩

/-- C3: amended.  For every candidate record whose `verificationUrl` has
host `www.citiprogram.org`, a `/verify/` path with a UUID-like token and a
trailing 8-digit code equal to `recordId`, but written *without* the
`https://` scheme prefix (the code's convention — the orchestrator itself
prepends `https://` before downloading), the validator's URL check
succeeds, and an otherwise-matching submission passes the validator and
proceeds toward APPROVE.  With the `https://` prefix the check fails. -/
theorem url_check_schemeless_passes_validator
    (so : CitiCertificateStructuredOutput) (name : String)
    (er : DocExtractionResult) (md : PyMuPDFMetadata)
    (llm : String → Except PyErr CitiCertificateStructuredOutput)
    (h8 h4a h4b h4c h12 d8 : List Char)
    (hh8 : h8.length = 8) (hc8 : ∀ c ∈ h8, isHexCI c = true)
    (hh4a : h4a.length = 4) (hc4a : ∀ c ∈ h4a, isHexCI c = true)
    (hh4b : h4b.length = 4) (hc4b : ∀ c ∈ h4b, isHexCI c = true)
    (hh4c : h4c.length = 4) (hc4c : ∀ c ∈ h4c, isHexCI c = true)
    (hh12 : h12.length = 12) (hc12 : ∀ c ∈ h12, isHexCI c = true)
    (hd8 : d8.length = 8) (hcd8 : ∀ c ∈ d8, isDigitC c = true)
    (hurl : so.verification_url = ⟨mkSchemelessUrl h8 h4a h4b h4c h12 d8⟩)
    (hrec : so.record_id = ⟨d8⟩)
    (hmeta : er.metadata = some md)
    (hdate : formatPdfDate (md.creation_date.getD "") = .ok so.generated_on)
    (hname : normName name = normName so.student_name)
    (hllm : llm er.text = .ok so) :
    citiUrlCapture so.verification_url.data = some d8
    ∧ verifyWithMetadataAndSubmittedText name er llm = .ok (some so) := by
  have hcapture := citiUrlCapture_schemeless h8 h4a h4b h4c h12 d8
    hh8 hc8 hh4a hc4a hh4b hc4b hh4c hc4c hh12 hc12 hd8 hcd8
  have hcap2 : citiUrlCapture so.verification_url.data = some d8 := by
    rw [hurl]; exact hcapture
  refine ⟨hcap2, ?_⟩
  simp only [verifyWithMetadataAndSubmittedText, hllm, hmeta, hdate, hname,
    hcap2, hrec, ne_eq, not_true_eq_false, if_false]

/-- C3 witness: the scenario-A URL written without the scheme, with matching
metadata date, name, and record id, passes the URL check and the validator. -/
theorem url_check_schemeless_passes_validator_witness :
    citiUrlCapture (mkSchemelessUrl "12345678".data "1234".data "1234".data
        "1234".data "123456789abc".data "20250114".data) = some "20250114".data
    ∧ verifyWithMetadataAndSubmittedText "Jane Doe" erScenarioA
        (fun _ =>
          .ok { soHttpsUrl with
                verification_url := ⟨mkSchemelessUrl "12345678".data "1234".data
                  "1234".data "1234".data "123456789abc".data "20250114".data⟩ })
      = .ok (some { soHttpsUrl with
                verification_url := ⟨mkSchemelessUrl "12345678".data "1234".data
                  "1234".data "1234".data "123456789abc".data "20250114".data⟩ }) :=
  url_check_schemeless_passes_validator
    { soHttpsUrl with
      verification_url := ⟨mkSchemelessUrl "12345678".data "1234".data
        "1234".data "1234".data "123456789abc".data "20250114".data⟩ }
    "Jane Doe" erScenarioA { creation_date := some "D:20250114031902" } _
    "12345678".data "1234".data "1234".data "1234".data "123456789abc".data
    "20250114".data
    (by decide) (by decide) (by decide) (by decide) (by decide) (by decide)
    (by decide) (by decide) (by decide) (by decide) (by decide) (by decide)
    rfl rfl rfl rfl rfl rfl

/-! ## C9: page counts reported by the two extraction paths -/
/-- C9: the OCR fallback always reports a page count of 1, whatever the
document's actual page list, while the digital path reports the full page
count. -/
theorem extraction_pages_fields :
    (∀ (doc : PdfDoc) (r : DocExtractionResult),
        extractWithTesseract doc = .ok r → r.pages = 1)
    ∧ ∀ doc : PdfDoc, (extractWithPymupdf doc).pages = doc.pages.length := by
  constructor
  · intro doc r h
    obtain ⟨pages, md⟩ := doc
    cases pages with
    | nil => simp [extractWithTesseract] at h
    | cons p0 rest =>
      simp only [extractWithTesseract] at h
      injection h with h2
      rw [← h2]
  · intro doc
    rfl

/-- C9 witness: on a concrete document the OCR fallback result has
`pages = 1`, and the digital path reports the full page count. -/
theorem extraction_pages_fields_witness :
    extractWithTesseract docOnePage = .ok resOnePage
    ∧ resOnePage.pages = 1
    ∧ (extractWithPymupdf docOnePage).pages = docOnePage.pages.length :=
  ⟨rfl, extraction_pages_fields.1 docOnePage resOnePage rfl,
    extraction_pages_fields.2 docOnePage⟩

/-! ## C6: digital-first extraction with first-page-only OCR fallback -/
theorem dropWhile_isWs_eq_self {l : List Char}
    (h : ∀ c, l.head? = some c → isWs c = false) : l.dropWhile isWs = l := by
  cases l with
  | nil => rfl
  | cons c cs => simp [List.dropWhile_cons, h c rfl]

theorem head?_dropWhile_isWs : ∀ {l : List Char} {c : Char},
    (l.dropWhile isWs).head? = some c → isWs c = false := by
  intro l
  induction l with
  | nil => intro c h; simp at h
  | cons d ds ih =>
    intro c h
    by_cases hd : isWs d
    · rw [List.dropWhile_cons, if_pos hd] at h
      exact ih h
    · rw [List.dropWhile_cons, if_neg hd] at h
      simp only [List.head?_cons, Option.some.injEq] at h
      subst h
      exact Bool.of_not_eq_true hd

theorem getLast?_dropWhile_isWs : ∀ {l : List Char},
    l.dropWhile isWs ≠ [] → (l.dropWhile isWs).getLast? = l.getLast? := by
  intro l
  induction l with
  | nil => intro h; rfl
  | cons d ds ih =>
    intro h
    by_cases hd : isWs d
    · rw [List.dropWhile_cons, if_pos hd] at h ⊢
      rw [ih h]
      have hds : ds ≠ [] := by
        intro hnil
        rw [hnil] at h
        exact h rfl
      cases ds with
      | nil => exact absurd rfl hds
      | cons e es => rfl
    · rw [List.dropWhile_cons, if_neg hd]

theorem pyStripL_idem (l : List Char) : pyStripL (pyStripL l) = pyStripL l := by
  unfold pyStripL
  set u := l.dropWhile isWs with hu
  set v := u.reverse.dropWhile isWs with hv
  have hstepA : v.reverse.dropWhile isWs = v.reverse := by
    apply dropWhile_isWs_eq_self
    intro c hc
    by_cases hvnil : v = []
    · rw [hvnil] at hc; simp at hc
    · have h1 : v.reverse.head? = v.getLast? := by
        rw [List.head?_reverse]
      have h2 : v.getLast? = u.reverse.getLast? := getLast?_dropWhile_isWs hvnil
      have h3 : u.reverse.getLast? = u.head? := by
        rw [List.getLast?_reverse]
      rw [h1, h2, h3] at hc
      exact head?_dropWhile_isWs (l := l) hc
  have hstepB : v.dropWhile isWs = v := by
    apply dropWhile_isWs_eq_self
    intro c hc
    exact head?_dropWhile_isWs (l := u.reverse) hc
  rw [hstepA, List.reverse_reverse, hstepB]

theorem strip_cleanText (s : String) : pyStrip (cleanText s) = cleanText s :=
  congrArg String.mk (pyStripL_idem (collapseNl (collapseWs s.data)))

theorem pymupdf_text_stripped (doc : PdfDoc) :
    pyStrip (extractWithPymupdf doc).text = (extractWithPymupdf doc).text := by
  have hpt : (extractWithPymupdf doc).text = pymupdfText doc := rfl
  rw [hpt]
  unfold pymupdfText
  exact strip_cleanText _

theorem extractText_digital (doc : PdfDoc) (fn : String)
    (hext : fileExtension fn = "pdf")
    (h50 : 50 < (extractWithPymupdf doc).text.length) :
    extractText (.ok doc) fn = .ok (extractWithPymupdf doc) := by
  have hne : (extractWithPymupdf doc).text ≠ "" := by
    intro he
    rw [he] at h50
    simp at h50
  have hlt : 50 < (pyStrip (extractWithPymupdf doc).text).length := by
    rw [pymupdf_text_stripped]; exact h50
  simp only [extractText, hext, ne_eq, not_true_eq_false, if_false,
    if_pos (And.intro hne hlt)]

theorem extractText_fallback (doc : PdfDoc) (fn : String)
    (hext : fileExtension fn = "pdf")
    (h50 : (extractWithPymupdf doc).text.length ≤ 50) :
    extractText (.ok doc) fn
      = (extractWithTesseract doc).mapError (fun e => PyErr.exc e.msg) := by
  have hC : ¬((extractWithPymupdf doc).text ≠ ""
      ∧ 50 < (pyStrip (extractWithPymupdf doc).text).length) := by
    rintro ⟨-, hlt⟩
    rw [pymupdf_text_stripped] at hlt
    omega
  simp only [extractText, hext, ne_eq, not_true_eq_false, if_false, if_neg hC]
  cases htess : extractWithTesseract doc <;> simp [Except.mapError]

theorem extractWithPymupdf_congr (doc2 doc : PdfDoc)
    (hdg : doc2.pages.map PdfPage.digitalText = doc.pages.map PdfPage.digitalText)
    (hmd : doc2.metadata = doc.metadata) :
    extractWithPymupdf doc2 = extractWithPymupdf doc := by
  have hmap : ∀ d : PdfDoc, d.pages.map (fun p => pyStrip p.digitalText)
      = (d.pages.map PdfPage.digitalText).map pyStrip := by
    intro d
    rw [List.map_map]
    rfl
  have htext : pymupdfText doc2 = pymupdfText doc := by
    unfold pymupdfText
    rw [hmap, hmap, hdg]
  have hlen : doc2.pages.length = doc.pages.length := by
    have := congrArg List.length hdg
    simpa using this
  unfold extractWithPymupdf
  rw [htext, hlen, hmd]

theorem extractWithTesseract_congr (doc2 doc : PdfDoc)
    (hhead : doc2.pages.head? = doc.pages.head?)
    (hmd : doc2.metadata = doc.metadata) :
    extractWithTesseract doc2 = extractWithTesseract doc := by
  obtain ⟨pages2, md2⟩ := doc2
  obtain ⟨pages, md⟩ := doc
  simp only at hhead hmd
  subst hmd
  cases pages2 with
  | nil =>
    cases pages with
    | nil => rfl
    | cons q qs => simp at hhead
  | cons p ps =>
    cases pages with
    | nil => simp at hhead
    | cons q qs =>
      simp only [List.head?_cons, Option.some.injEq] at hhead
      subst hhead
      rfl

/-- C6: for every PDF input, if the digital extraction yields more than 50
characters the engine returns the digital result (the OCR path is never
consulted: any document with the same digital page texts and metadata gives
the same outcome), and otherwise it falls back to OCR, which is scoped to
the first page only (the result depends only on page one and the
metadata). -/
theorem extract_text_digital_first (doc : PdfDoc) (fn : String)
    (hext : fileExtension fn = "pdf") :
    (50 < (extractWithPymupdf doc).text.length →
      extractText (.ok doc) fn = .ok (extractWithPymupdf doc)
      ∧ ∀ doc2 : PdfDoc,
          doc2.pages.map PdfPage.digitalText = doc.pages.map PdfPage.digitalText →
          doc2.metadata = doc.metadata →
          extractText (.ok doc2) fn = extractText (.ok doc) fn)
    ∧ ((extractWithPymupdf doc).text.length ≤ 50 →
      extractText (.ok doc) fn
        = (extractWithTesseract doc).mapError (fun e => PyErr.exc e.msg))
    ∧ (∀ doc2 : PdfDoc, doc2.pages.head? = doc.pages.head? →
        doc2.metadata = doc.metadata →
        extractWithTesseract doc2 = extractWithTesseract doc) := by
  refine ⟨fun h50 => ⟨extractText_digital doc fn hext h50, fun doc2 hdg hmd => ?_⟩,
    fun h50 => extractText_fallback doc fn hext h50,
    fun doc2 hh hmd => extractWithTesseract_congr doc2 doc hh hmd⟩
  have hpy := extractWithPymupdf_congr doc2 doc hdg hmd
  rw [extractText_digital doc2 fn hext (by rw [hpy]; exact h50),
    extractText_digital doc fn hext h50, hpy]

/-- C6 witness: on `docLongText` (digital text of 75 > 50 characters) the
engine returns the digital result; on `docShortText` it falls back to the
first-page OCR result. -/
theorem extract_text_digital_first_witness :
    extractText (.ok docLongText) "cert.pdf" = .ok (extractWithPymupdf docLongText)
    ∧ extractText (.ok docShortText) "cert.pdf"
      = (extractWithTesseract docShortText).mapError (fun e => PyErr.exc e.msg) :=
  ⟨((extract_text_digital_first docLongText "cert.pdf" rfl).1 (by decide)).1,
    (extract_text_digital_first docShortText "cert.pdf" rfl).2.1 (by decide)⟩

/-! ## C1: outcome of a run whose submission id is not found -/
/-- C1: contrary to the claim, a run whose submission id matches no row
raises to its caller.  `_get_submission_data` raises `ValueError`, the
catch-all `except` swallows it, but the `finally` block then evaluates
`submission_data["submission"]` on the still-empty dict and raises
`KeyError`; no verdict is persisted, no history entry is written, and no
notification is sent. -/
theorem run_raises_keyerror_when_submission_missing (env : Env)
    (h : env.submissionRow = none) :
    (runVerify env).raised = some (.keyError "submission")
    ∧ (runVerify env).savedHistory = none
    ∧ (runVerify env).statsApplied = false
    ∧ (runVerify env).notified = none := by
  cases hb : runBody env with
  | error e => simp [runVerify, h, hb]
  | ok vc =>
    obtain ⟨v, cc⟩ := vc
    simp [runVerify, h, hb]

/-- C1 witness: the concrete missing-submission run raises `KeyError` and
persists nothing. -/
theorem run_raises_keyerror_when_submission_missing_witness :
    (runVerify envMissing).raised = some (.keyError "submission")
    ∧ (runVerify envMissing).savedHistory = none
    ∧ (runVerify envMissing).statsApplied = false
    ∧ (runVerify envMissing).notified = none :=
  run_raises_keyerror_when_submission_missing envMissing rfl

theorem bindStatsKwargs_error (d : VerificationDecision) :
    bindStatsKwargs d = .error (.typeError (firstBadKwarg d)) := by
  cases d <;> rfl

/-- C2: contrary to the claim, finalization never applies the dashboard
deltas and never reaches the notification step: for every decision the
delta keywords passed with `**deltas` match no parameter of
`update_dashboard_stats_by_schedule`, so the call raises `TypeError`,
which escapes `finally` to the caller. -/
theorem stats_update_raises_typeerror :
    (∀ d : VerificationDecision,
        bindStatsKwargs d = .error (.typeError (firstBadKwarg d))
        ∧ statsAcceptedParams.contains (firstBadKwarg d) = false
        ∧ ((decisionDeltas d).map Prod.fst).contains (firstBadKwarg d) = true)
    ∧ ∀ (env : Env) (sub : SubmissionRow) (stu : StudentRow) (usr : UserRow),
        env.submissionRow = some (sub, stu, usr) → sub.id ≠ "" →
        (runVerify env).statsApplied = false
        ∧ (runVerify env).notified = none
        ∧ ∃ k, (runVerify env).raised = some (.typeError k) := by
  constructor
  · intro d
    cases d <;> exact ⟨rfl, rfl, rfl⟩
  · intro env sub stu usr h hid
    cases hb : runBody env with
    | error e =>
      simp only [runVerify, h, hb, hid, bindStatsKwargs_error, ne_eq,
        not_false_eq_true, if_true, ite_true]
      exact ⟨trivial, trivial, firstBadKwarg genericErrorVerdict.decision, rfl⟩
    | ok vc =>
      obtain ⟨v, cc⟩ := vc
      simp only [runVerify, h, hb, hid, bindStatsKwargs_error, ne_eq,
        not_false_eq_true, if_true, ite_true]
      exact ⟨trivial, trivial, firstBadKwarg v.decision, rfl⟩

/-- C2 witness: a concrete located run ends with the stats update not
applied, no notification, and a `TypeError` raised to the caller. -/
theorem stats_update_raises_typeerror_witness :
    (runVerify envLocated).statsApplied = false
    ∧ (runVerify envLocated).notified = none
    ∧ ∃ k, (runVerify envLocated).raised = some (.typeError k) :=
  stats_update_raises_typeerror.2 envLocated subLocated
    { user_id := "user-1" } { first_name := "Jane", last_name := "Doe" }
    rfl (by decide)

/-! ## C8: the cross-check verifier -/
theorem missMatches_nil_iff (a b : CitiCertificateStructuredOutput) :
    missMatches a b = []
      ↔ ∀ f ∈ comparedFields, clean (getField a f) = clean (getField b f) := by
  unfold missMatches
  rw [List.map_eq_nil_iff, List.filter_eq_nil_iff]
  constructor
  · intro h f hf
    have := h f hf
    simpa using this
  · intro h f hf
    simpa using h f hf

theorem missMatches_ignores_generated_on
    (a b : CitiCertificateStructuredOutput) (g1 g2 : String) :
    missMatches { a with generated_on := g1 } { b with generated_on := g2 }
      = missMatches a b := by
  unfold missMatches
  have hcongr : ∀ f ∈ comparedFields,
      (decide (clean (getField { a with generated_on := g1 } f)
          ≠ clean (getField { b with generated_on := g2 } f)))
        = decide (clean (getField a f) ≠ clean (getField b f)) := by
    intro f hf
    fin_cases hf <;> rfl
  rw [List.filter_congr hcongr]

theorem missMatches_only_university
    (a b : CitiCertificateStructuredOutput)
    (h1 : clean a.student_name = clean b.student_name)
    (h2 : clean a.record_id = clean b.record_id)
    (h3 : clean a.verification_url = clean b.verification_url)
    (h4 : clean a.expiration_date = clean b.expiration_date)
    (h5 : clean a.curriculum_group = clean b.curriculum_group)
    (h6 : clean a.course_learner_group = clean b.course_learner_group)
    (h7 : clean a.university_name ≠ clean b.university_name) :
    missMatches a b = ["University Name"] := by
  simp only [missMatches, comparedFields, citiFields, getField]
  simp [h1, h2, h3, h4, h5, h6, h7]
  rfl

theorem runBody_cross_mismatch (env : Env) (sub : SubmissionRow)
    (stu : StudentRow) (usr : UserRow) (er er2 : DocExtractionResult)
    (bts : List Nat) (so b : CitiCertificateStructuredOutput)
    (h : env.submissionRow = some (sub, stu, usr))
    (hfg : env.fileGetSuccess = true)
    (hex : extractText env.submittedDoc sub.filename = .ok er)
    (hval : verifyWithMetadataAndSubmittedText
        (usr.first_name ++ " " ++ usr.last_name) er env.llm1 = .ok (some so))
    (hdl : env.download ("https://" ++ so.verification_url) = .ok bts)
    (hex2 : extractText env.crossDoc sub.filename = .ok er2)
    (hllm2 : env.llm2 er2.text = .ok b)
    (hne : missMatches so b ≠ []) :
    runBody env = .ok (crossCheckVerdict (missMatches so b), true) := by
  simp only [runBody, h, hfg, Bool.not_true, if_false, hex, hval, hdl, hex2,
    verifyWithCrossCheckText, hllm2, ne_eq, hne, not_false_eq_true, if_true,
    ite_true, ite_false, Bool.false_eq_true]

/-- C8: the cross-check compares every schema field except `generated_on`
(the result is blind to that field), returns `[]` exactly when all compared
fields agree after normalization, renders mismatching field names in title
case, and — when only the university name disagrees after normalization —
returns exactly `["University Name"]`; a run reaching the cross-check with
that mismatch records the REJECT verdict listing it. -/
theorem cross_check_spec :
    (∀ a b : CitiCertificateStructuredOutput, missMatches a b = []
      ↔ ∀ f ∈ comparedFields, clean (getField a f) = clean (getField b f))
    ∧ (∀ (a b : CitiCertificateStructuredOutput) (g1 g2 : String),
        missMatches { a with generated_on := g1 } { b with generated_on := g2 }
          = missMatches a b)
    ∧ comparedFields = citiFields.filter (fun f => f ≠ "generated_on")
    ∧ comparedFields.map humanizeField =
        ["Student Name", "Record Id", "Verification Url", "Expiration Date",
         "Curriculum Group", "Course Learner Group", "University Name"]
    ∧ (∀ a b : CitiCertificateStructuredOutput,
        clean a.student_name = clean b.student_name →
        clean a.record_id = clean b.record_id →
        clean a.verification_url = clean b.verification_url →
        clean a.expiration_date = clean b.expiration_date →
        clean a.curriculum_group = clean b.curriculum_group →
        clean a.course_learner_group = clean b.course_learner_group →
        clean a.university_name ≠ clean b.university_name →
        missMatches a b = ["University Name"])
    ∧ (crossCheckVerdict ["University Name"]).decision = .REJECT
    ∧ (crossCheckVerdict ["University Name"]).comments
        = ["The following fields did not match during cross-check.\n University Name"]
    ∧ ∀ (env : Env) (sub : SubmissionRow) (stu : StudentRow) (usr : UserRow)
        (er er2 : DocExtractionResult) (bts : List Nat)
        (so b : CitiCertificateStructuredOutput),
        env.submissionRow = some (sub, stu, usr) → sub.id ≠ "" →
        env.fileGetSuccess = true →
        extractText env.submittedDoc sub.filename = .ok er →
        verifyWithMetadataAndSubmittedText
          (usr.first_name ++ " " ++ usr.last_name) er env.llm1 = .ok (some so) →
        env.download ("https://" ++ so.verification_url) = .ok bts →
        extractText env.crossDoc sub.filename = .ok er2 →
        env.llm2 er2.text = .ok b →
        missMatches so b ≠ [] →
        (runVerify env).verdict = crossCheckVerdict (missMatches so b)
        ∧ (runVerify env).crossChecked = true
        ∧ (runVerify env).savedHistory = some
            { submission_id := sub.id
              old_status := sub.submission_status
              new_status := .REJECTED
              comments := String.intercalate "\n"
                (crossCheckVerdict (missMatches so b)).comments } := by
  refine ⟨missMatches_nil_iff, missMatches_ignores_generated_on, rfl, by decide,
    missMatches_only_university, rfl, rfl, ?_⟩
  intro env sub stu usr er er2 bts so b h hid hfg hex hval hdl hex2 hllm2 hne
  have hbody := runBody_cross_mismatch env sub stu usr er er2 bts so b
    h hfg hex hval hdl hex2 hllm2 hne
  simp only [runVerify, h, hid, hbody, bindStatsKwargs_error, ne_eq,
    not_false_eq_true, if_true, ite_true]
  exact ⟨trivial, trivial, rfl⟩

/-- C8 witness: in scenario C the mismatch list is exactly
`["University Name"]` and the concrete run records the REJECT verdict
naming it. -/
theorem cross_check_spec_witness :
    missMatches soScenC soScenCCross = ["University Name"]
    ∧ (runVerify envScenC).verdict = crossCheckVerdict ["University Name"]
    ∧ (runVerify envScenC).verdict.decision = VerificationDecision.REJECT := by
  have hmm : missMatches soScenC soScenCCross = ["University Name"] := by decide
  have h := cross_check_spec.2.2.2.2.2.2.2 envScenC subScenC
    { user_id := "user-1" } { first_name := "Jane", last_name := "Doe" }
    (extractWithPymupdf docScenC) (extractWithPymupdf docScenCCross) []
    soScenC soScenCCross rfl (by decide) rfl rfl rfl rfl rfl rfl
    (by rw [hmm]; exact fun hcon => List.noConfusion hcon)
  rw [hmm] at h
  exact ⟨hmm, h.1, by rw [h.1]; rfl⟩

/-! ## C10: upload outcome does not influence the run -/

/-- C10: two runs whose environments differ only in the reported success of
the object-storage upload of the downloaded certificate produce identical
outcomes: same verdict, same history row, same cross-check activity, same
raised exception — the failure is merely logged. -/
theorem run_outcome_independent_of_upload (env : Env) (b1 b2 : Bool) :
    runVerify { env with uploadSuccess := b1 }
      = runVerify { env with uploadSuccess := b2 } := rfl

end Citi

